import Mathlib

/-!
Shallow embedding of the FB_BatchRequestServer repository.

Source files embedded:
* `main.py` — `send_batch_to_facebook` (input validation, path normalization,
  decomposition of the upstream batch response into per-sub-request results).
* `test2.py` — `_summarize_rate_limits_from_batch` (rate-limit aggregation over
  the per-sub-request results).

Modelling conventions:
* Python/JSON values are modelled by `JVal`.  JSON `null` is Python `None`
  (the code never distinguishes them), so a result field holding `None` is
  `JVal.jnull`.  A Python string is `JVal.jstr s p` where `p` records what
  `json.loads` would return on `s` (`none` when `s` is not valid JSON); this
  avoids embedding a textual JSON parser while keeping `json.loads` faithful.
* Python exceptions are modelled by `PyExc`; functions that can raise return
  `Except PyExc _`.  `try/except` blocks are modelled by matching on the
  raised exception and either handling it (as the source does) or re-raising.
* Python dicts are association lists with unique keys; assignment
  (`d[k] = v`) is `pySet` (update in place, else append — insertion order),
  `d.get(k, default)` is `List.lookup` plus a default.
* The single outbound network call of `send_batch_to_facebook` is modelled by
  passing the upstream response (`Upstream`) as an explicit argument: the
  function is otherwise a pure transformation of it.
-/

/-- Python/JSON value: `jnull` is both JSON null and Python `None`; `jstr s p`
is the string `s` together with the outcome `p` of parsing `s` as JSON. -/
inductive JVal where
  | jnull : JVal
  | jbool : Bool → JVal
  | jnum : ℚ → JVal
  | jstr : String → Option JVal → JVal
  | jarr : List JVal → JVal
  | jobj : List (String × JVal) → JVal

/-- Python exceptions raised by the embedded code. -/
inductive PyExc where
  | valueError : PyExc
  | runtimeError : PyExc
  | typeError : PyExc
  | attributeError : PyExc
  | jsonDecodeError : PyExc
deriving DecidableEq

/-- Lowercase an ASCII letter, as Python `str.lower` does on the ASCII header
names this code handles. -/
def asciiLowerChar (c : Char) : Char :=
  if 65 ≤ c.toNat ∧ c.toNat ≤ 90 then Char.ofNat (c.toNat + 32) else c

/-- Python `s.lower()` (ASCII). -/
def pyLower (s : String) : String := String.mk (s.data.map asciiLowerChar)

/-- Python `needle in hay` for strings (substring containment). -/
def pyInStr (needle hay : String) : Bool := decide (needle.data <:+: hay.data)

/-- Python `s.startswith(pre)`. -/
def pyStartsWith (s pre : String) : Bool := pre.data.isPrefixOf s.data

/-- Python `s.lstrip("/")`: drop every leading `/`. -/
def pyLstripSlash (s : String) : String :=
  String.mk (s.data.dropWhile (fun c => c == '/'))

/-- Python `s.split("/")[0]` (equally `s.split("/", 1)[0]`): the prefix of `s`
up to the first `/`, or all of `s` when it has none. -/
def pyFirstSeg (s : String) : String :=
  String.mk (s.data.takeWhile (fun c => c != '/'))

/-- Python truthiness of a value (`if v:`). -/
def pyTruthy : JVal → Bool
  | .jnull => false
  | .jbool b => b
  | .jnum q => q != 0
  | .jstr s _ => s != ""
  | .jarr l => !l.isEmpty
  | .jobj fs => !fs.isEmpty

/-- Python `v.get(k, d)`: a dict lookup with default; on a non-dict value
`.get` raises `AttributeError`. -/
def pyGetD (v : JVal) (k : String) (d : JVal) : Except PyExc JVal :=
  match v with
  | .jobj fs => .ok ((fs.lookup k).getD d)
  | _ => .error .attributeError

/-- Python `json.loads(v)`: strings yield their recorded parse outcome
(`JSONDecodeError` when the string is not valid JSON); non-strings raise
`TypeError`. -/
def jsonLoads : JVal → Except PyExc JVal
  | .jstr _ (some v) => .ok v
  | .jstr _ none => .error .jsonDecodeError
  | _ => .error .typeError

/-- Python iteration `for x in v`: lists yield their elements, dicts their
keys, strings their characters (as one-character strings); other values raise
`TypeError`. -/
def pyIterate : JVal → Except PyExc (List JVal)
  | .jarr l => .ok l
  | .jobj fs => .ok (fs.map (fun kv => JVal.jstr kv.1 none))
  | .jstr s _ => .ok (s.data.map (fun c => JVal.jstr (String.mk [c]) none))
  | _ => .error .typeError

/-- Python `isinstance(v, (int, float))` plus `float(v)`: `bool` is a subclass
of `int` in Python, so `True`/`False` count as numbers 1/0. -/
def pyFloatNum : JVal → Option ℚ
  | .jnum q => some q
  | .jbool b => some (if b then 1 else 0)
  | _ => none

/-- Python `max(a, b)` on numbers (returns the first argument on ties). -/
def pyMaxQ (a b : ℚ) : ℚ := if a < b then b else a

/-- Python `max(a, v)` where `a` is a number and `v` an arbitrary value:
raises `TypeError` unless `v` is a number (`bool` counts as 0/1). -/
def pyMaxQJ (a : ℚ) (v : JVal) : Except PyExc ℚ :=
  match pyFloatNum v with
  | some b => .ok (pyMaxQ a b)
  | none => .error .typeError

/-- Python `max(l)` for a list of numbers, `None` when the list is empty
(the source writes `max(l) if l else None`). -/
def pyMaxList : List ℚ → Option ℚ
  | [] => none
  | x :: xs => some (xs.foldl pyMaxQ x)

/-- Python dict assignment `d[k] = v` on an insertion-ordered dict: update the
existing key in place, else append. -/
def pySet {β : Type} : List (String × β) → String → β → List (String × β)
  | [], k, v => [(k, v)]
  | (k', v') :: rest, k, v =>
      if k' = k then (k', v) :: rest else (k', v') :: pySet rest k v

/-- One processed sub-request result, the dict `result_item` built by
`send_batch_to_facebook` (`main.py` lines 98–104).  `main.py` results carry no
`headers` key, so `result.get("headers", [])` yields `[]` there; we model that
with the field set to `jarr []`.  The `test2.py` variant stores the upstream
item's `headers` value in this field. -/
structure ResultItem where
  requestIndex : Nat
  requestedUrl : JVal
  statusCode : JVal
  headers : JVal
  data : JVal
  error : JVal

/-- Outcome of the single outbound `requests.post` call: transport failure
(`RequestException`), a response whose text is not JSON, or a parsed JSON
response. -/
inductive Upstream where
  | transportError : Upstream
  | notJson : Upstream
  | json : JVal → Upstream

/-- Path normalization and version check, `main.py` lines 56–61: strip leading
`/`; raise `ValueError` when the path starts with `"{version}/"` or starts
with `"v"` and its first segment equals the version (Python precedence:
`a or (b and c)`). -/
def normalize_urls (api_version : String) : List String → Except PyExc (List String)
  | [] => .ok []
  | url :: rest =>
    let u := pyLstripSlash url
    if pyStartsWith u (api_version ++ "/") = true ∨
        (pyStartsWith u "v" = true ∧ pyFirstSeg u = api_version) then
      .error .valueError
    else
      match normalize_urls api_version rest with
      | .error e => .error e
      | .ok us => .ok (u :: us)

/-- Error marker for a null element of the upstream array, `main.py` line 107. -/
def nullResultMarker : JVal :=
  .jstr "Kết quả NULL (yêu cầu có thể thất bại hoặc bị bỏ qua)." none

/-- Error marker for a body that is not valid JSON, `main.py` line 117
(the f-string slices the raw body text to 500 characters; the slice of a
non-string never happens because only strings can raise `JSONDecodeError`). -/
def bodyParseErrorMarker (bodyText : JVal) : JVal :=
  .jstr ("Body không phải JSON. Raw: " ++
    (match bodyText with
     | .jstr s _ => s.take 500
     | _ => "")) none

/-- Sub-request error extraction, `main.py` lines 125–128: the parsed body's
`error` member when the body is a dict carrying one, else the whole body. -/
def subErrorOf (bodyJson : JVal) : JVal :=
  match bodyJson with
  | .jobj fs =>
    match fs.lookup "error" with
    | some e => e
    | none => bodyJson
  | _ => bodyJson

/-- The `requested_url` field of a result: `normalized_urls[i] if i <
len(normalized_urls) else None` (`main.py` line 100). -/
def requestedUrlAt (normalized : List String) (i : Nat) : JVal :=
  match normalized[i]? with
  | some u => .jstr u none
  | none => .jnull

/-- Loop body of `main.py` lines 97–130: build one `result_item` from element
`i` of the upstream array.  A `None` element yields the null-result marker
with no status code; otherwise `item.get` raises `AttributeError` on
non-dicts, the `body` string is parsed (a `JSONDecodeError` is caught and
recorded, a `TypeError` from a non-string body propagates), and the parsed
body lands in `data` on status 200, else in `error` via `subErrorOf`. -/
def process_result_item (normalized : List String) (i : Nat) (item : JVal) :
    Except PyExc ResultItem :=
  let base : ResultItem :=
    { requestIndex := i
      requestedUrl := requestedUrlAt normalized i
      statusCode := .jnull
      headers := .jarr []
      data := .jnull
      error := .jnull }
  match item with
  | .jnull => .ok { base with error := nullResultMarker }
  | _ =>
    match pyGetD item "code" .jnull with
    | .error e => .error e
    | .ok code =>
      match pyGetD item "body" (.jstr "" none) with
      | .error e => .error e
      | .ok bodyText =>
        let withCode := { base with statusCode := code }
        match (if pyTruthy bodyText then jsonLoads bodyText else .ok (.jobj [])) with
        | .error .jsonDecodeError =>
          .ok { withCode with error := bodyParseErrorMarker bodyText }
        | .error e => .error e
        | .ok bodyJson =>
          match code with
          | .jnum q =>
            if q = 200 then .ok { withCode with data := bodyJson }
            else .ok { withCode with error := subErrorOf bodyJson }
          | _ => .ok { withCode with error := subErrorOf bodyJson }

/-- The `for i, item in enumerate(data)` loop of `main.py` lines 97–130,
starting at index `i`. -/
def process_results (normalized : List String) (i : Nat) :
    List JVal → Except PyExc (List ResultItem)
  | [] => .ok []
  | item :: rest =>
    match process_result_item normalized i item with
    | .error e => .error e
    | .ok r =>
      match process_results normalized (i + 1) rest with
      | .error e => .error e
      | .ok rs => .ok (r :: rs)

/-- Top-level response handling, `main.py` lines 85–95: a dict carrying an
`error` member raises `RuntimeError` (after `err.get(...)` calls that raise
`AttributeError` when the `error` value is not itself a dict); any non-list
response raises `RuntimeError`; a list is processed element-wise. -/
def handle_response_data (normalized : List String) (d : JVal) :
    Except PyExc (List ResultItem) :=
  match d with
  | .jobj fs =>
    match fs.lookup "error" with
    | some err =>
      match err with
      | .jobj _ => .error .runtimeError
      | _ => .error .attributeError
    | none => .error .runtimeError
  | .jarr items => process_results normalized 0 items
  | _ => .error .runtimeError

/-- Embedding of `send_batch_to_facebook` (`main.py` lines 40–132).  The
upstream response is an explicit argument; everything else follows the source:
credential check, 1–50 count check, path normalization with the version
check, then decomposition of the upstream response. -/
def send_batch_to_facebook (relative_urls : List String) (access_token : String)
    (api_version : String) (upstream : Upstream) : Except PyExc (List ResultItem) :=
  if access_token = "" ∨ pyInStr "YOUR_ACCESS_TOKEN" access_token = true then
    .error .valueError
  else if ¬(1 ≤ relative_urls.length ∧ relative_urls.length ≤ 50) then
    .error .valueError
  else
    match normalize_urls api_version relative_urls with
    | .error e => .error e
    | .ok normalized =>
      match upstream with
      | .transportError => .error .runtimeError
      | .notJson => .error .runtimeError
      | .json d => handle_response_data normalized d

/-- Mutable accumulator of `_summarize_rate_limits_from_batch`
(`test2.py` lines 238–240): `app_usage_values`, `account_usages`, `etas`. -/
structure SumState where
  appVals : List ℚ
  usages : List (String × ℚ)
  etas : List (String × ℚ)

/-- The returned summary (`test2.py` lines 283–289; the two per-account maps
are nested under `account_details` in the source dict). -/
structure RateLimitSummary where
  insights_app_usage : Option ℚ
  insights_account_usages : List (String × ℚ)
  etas : List (String × ℚ)

/-- Account-id extraction, `test2.py` lines 251–257:
`result.get("requested_url", "").split('/')[0]` when it starts with `act_`;
any exception (for example `.split` on `None`) is caught and yields `None`. -/
def acc_id_from_url (v : JVal) : Option String :=
  match v with
  | .jstr s _ =>
    let seg := pyFirstSeg s
    if pyStartsWith seg "act_" = true then some seg else none
  | _ => none

/-- Key/value of one header for the `headers_dict` comprehension
(`test2.py` line 249): `h.get("name", "").lower()` raises `AttributeError`
when `h` is not a dict or its `name` value is not a string. -/
def header_kv (h : JVal) : Except PyExc (String × JVal) :=
  match h with
  | .jobj fs =>
    match (fs.lookup "name").getD (.jstr "" none) with
    | .jstr s _ => .ok (pyLower s, (fs.lookup "value").getD .jnull)
    | _ => .error .attributeError
  | _ => .error .attributeError

/-- Key/value pairs of all headers, in order; an exception from any header
aborts the whole comprehension. -/
def header_kvs : List JVal → Except PyExc (List (String × JVal))
  | [] => .ok []
  | h :: rest =>
    match header_kv h with
    | .error e => .error e
    | .ok kv =>
      match header_kvs rest with
      | .error e => .error e
      | .ok kvs => .ok (kv :: kvs)

/-- The `headers_dict` comprehension (`test2.py` line 249): insert each
header's lowercased name in order, later headers with the same name
overwriting earlier ones. -/
def headers_dict_of (hs : List JVal) : Except PyExc (List (String × JVal)) :=
  match header_kvs hs with
  | .error e => .error e
  | .ok kvs => .ok (kvs.foldl (fun d kv => pySet d kv.1 kv.2) [])

/-- The JSON string `"{}"` used as the missing-header default
(`test2.py` lines 260 and 271). -/
def jsonEmptyObjStr : JVal := .jstr "\x7b\x7d" (some (.jobj []))

/-- Throttle-header value of a headers dict (`test2.py` line 260). -/
def throttle_header_val (hd : List (String × JVal)) : JVal :=
  (hd.lookup "x-fb-ads-insights-throttle").getD jsonEmptyObjStr

/-- Usage-header value of a headers dict (`test2.py` line 271). -/
def buc_header_val (hd : List (String × JVal)) : JVal :=
  (hd.lookup "x-business-use-case-usage").getD jsonEmptyObjStr

/-- First statement of the throttle block (`test2.py` lines 263–264): append
a numeric `app_id_util_pct` to `app_usage_values`. -/
def throttle_app_step (st : SumState) (fs : List (String × JVal)) : SumState :=
  match fs.lookup "app_id_util_pct" with
  | some v =>
    match pyFloatNum v with
    | some q => { st with appVals := st.appVals ++ [q] }
    | none => st
  | none => st

/-- Second statement of the throttle block (`test2.py` lines 265–266): when
the request's account id is known and `acc_id_util_pct` is numeric, store it
under that id (plain overwriting assignment). -/
def throttle_acc_step (accId : Option String) (st : SumState)
    (fs : List (String × JVal)) : SumState :=
  match accId with
  | some a =>
    match fs.lookup "acc_id_util_pct" with
    | some v =>
      match pyFloatNum v with
      | some q => { st with usages := pySet st.usages a q }
      | none => st
    | none => st
  | none => st

/-- Throttle block, `test2.py` lines 259–268: parse the throttle header and
run the two collection statements.  `JSONDecodeError`/`TypeError` are caught
(`pass`, before any mutation); `.get` on a non-dict parse result raises
`AttributeError`, which is not. -/
def throttle_block (accId : Option String) (hd : List (String × JVal))
    (st : SumState) : Except PyExc SumState :=
  match jsonLoads (throttle_header_val hd) with
  | .error .jsonDecodeError => .ok st
  | .error .typeError => .ok st
  | .error e => .error e
  | .ok t =>
    match t with
    | .jobj fs => .ok (throttle_acc_step accId (throttle_app_step st fs) fs)
    | _ => .error .attributeError

/-- Inner entry loop of the usage block, `test2.py` lines 276–279.  Note the
source's key mismatch: the value is stored under `"act_" ++ accKey` while the
previous value is looked up under the bare `accKey`.  A `TypeError` from
`max` (non-numeric eta) aborts the block keeping the mutations made so far;
`entry.get` on a non-dict entry raises `AttributeError`. -/
def buc_entries (accKey : String) : List (String × ℚ) → List JVal →
    Except (PyExc × List (String × ℚ)) (List (String × ℚ))
  | etas, [] => .ok etas
  | etas, entry :: rest =>
    match entry with
    | .jobj fs =>
      let eta := (fs.lookup "estimated_time_to_regain_access").getD (.jnum 0)
      match pyMaxQJ ((etas.lookup accKey).getD 0) eta with
      | .ok q => buc_entries accKey (pySet etas ("act_" ++ accKey) q) rest
      | .error e => .error (e, etas)
    | _ => .error (.attributeError, etas)

/-- Outer account loop of the usage block, `test2.py` lines 274–279:
non-list entry values are skipped (`isinstance(entries, list)`). -/
def buc_accounts : List (String × ℚ) → List (String × JVal) →
    Except (PyExc × List (String × ℚ)) (List (String × ℚ))
  | etas, [] => .ok etas
  | etas, (accKey, entries) :: rest =>
    match entries with
    | .jarr l =>
      match buc_entries accKey etas l with
      | .ok e2 => buc_accounts e2 rest
      | .error p => .error p
    | _ => buc_accounts etas rest

/-- Usage block, `test2.py` lines 270–281: parse the usage header and fold the
per-account entry loops over `etas`.  `JSONDecodeError`/`TypeError` anywhere
in the block are caught, keeping the mutations made before the exception;
`.items()` on a non-dict parse result raises `AttributeError`, which is not. -/
def buc_block (etas : List (String × ℚ)) (hd : List (String × JVal)) :
    Except PyExc (List (String × ℚ)) :=
  match jsonLoads (buc_header_val hd) with
  | .error .jsonDecodeError => .ok etas
  | .error .typeError => .ok etas
  | .error e => .error e
  | .ok buc =>
    match buc with
    | .jobj fs =>
      match buc_accounts etas fs with
      | .ok e2 => .ok e2
      | .error (.jsonDecodeError, e2) => .ok e2
      | .error (.typeError, e2) => .ok e2
      | .error (e, _) => .error e
    | _ => .error .attributeError

/-- Loop body of `_summarize_rate_limits_from_batch` (`test2.py` lines
242–281): skip results with falsy headers, build `headers_dict`, derive the
account id from the requested URL, then run the throttle and usage blocks. -/
def process_result (st : SumState) (r : ResultItem) : Except PyExc SumState :=
  if pyTruthy r.headers = false then .ok st
  else
    match pyIterate r.headers with
    | .error e => .error e
    | .ok hs =>
      match headers_dict_of hs with
      | .error e => .error e
      | .ok hd =>
        match throttle_block (acc_id_from_url r.requestedUrl) hd st with
        | .error e => .error e
        | .ok st1 =>
          match buc_block st1.etas hd with
          | .error e => .error e
          | .ok e2 => .ok { st1 with etas := e2 }

/-- The `for result in results` loop of `_summarize_rate_limits_from_batch`. -/
def summarize_results (st : SumState) : List ResultItem → Except PyExc SumState
  | [] => .ok st
  | r :: rest =>
    match process_result st r with
    | .error e => .error e
    | .ok st1 => summarize_results st1 rest

/-- Embedding of `_summarize_rate_limits_from_batch` (`test2.py` lines
234–289): fold the per-result loop from the empty state and package the final
dict (`max(app_usage_values) if app_usage_values else None`, the account
usage map, and the eta map). -/
def summarize_rate_limits_from_batch (results : List ResultItem) :
    Except PyExc RateLimitSummary :=
  match summarize_results ⟨[], [], []⟩ results with
  | .error e => .error e
  | .ok st => .ok ⟨pyMaxList st.appVals, st.usages, st.etas⟩

/-! ## General lemmas about `send_batch_to_facebook` -/

/-- Pointwise description of the result loop: a successful run yields one
result per upstream element, and the element at position `j` is processed at
index `i + j`. -/
theorem process_results_ok_spec (normalized : List String) :
    ∀ (items : List JVal) (i : Nat) (rs : List ResultItem),
      process_results normalized i items = .ok rs →
      rs.length = items.length ∧
      ∀ j item, items[j]? = some item →
        ∃ r, rs[j]? = some r ∧ process_result_item normalized (i + j) item = .ok r
  | [], i, rs, h => by
    simp only [process_results] at h
    cases h
    exact ⟨rfl, by intro j item hj; simp at hj⟩
  | item :: rest, i, rs, h => by
    unfold process_results at h
    cases h1 : process_result_item normalized i item with
    | error e => rw [h1] at h; exact absurd h (by simp)
    | ok r =>
      rw [h1] at h
      cases h2 : process_results normalized (i + 1) rest with
      | error e => rw [h2] at h; exact absurd h (by simp)
      | ok rs' =>
        rw [h2] at h
        cases h
        obtain ⟨hlen, hpt⟩ := process_results_ok_spec normalized rest (i + 1) rs' h2
        refine ⟨by simp [hlen], ?_⟩
        intro j it hj
        cases j with
        | zero =>
          simp only [List.getElem?_cons_zero, Option.some.injEq] at hj
          subst hj
          exact ⟨r, by simp, by simpa using h1⟩
        | succ j' =>
          simp only [List.getElem?_cons_succ] at hj
          obtain ⟨r', hr', hp⟩ := hpt j' it hj
          refine ⟨r', by simpa using hr', ?_⟩
          rw [show i + (j' + 1) = (i + 1) + j' by omega]
          exact hp

/-- Every successfully produced result carries the index it was built at. -/
theorem process_result_item_index (normalized : List String) (i : Nat)
    (item : JVal) (r : ResultItem)
    (h : process_result_item normalized i item = .ok r) : r.requestIndex = i := by
  unfold process_result_item at h
  repeat' split at h
  all_goals simp at h
  all_goals (subst h; simp)

/-- Every successfully produced result has a null `data` or a null `error`. -/
theorem process_result_item_excl (normalized : List String) (i : Nat)
    (item : JVal) (r : ResultItem)
    (h : process_result_item normalized i item = .ok r) :
    r.data = .jnull ∨ r.error = .jnull := by
  unfold process_result_item at h
  repeat' split at h
  all_goals simp at h
  all_goals (subst h; simp)

/-- A null upstream element yields the null-result marker, no status code,
and no payload. -/
theorem process_result_item_null (normalized : List String) (i : Nat)
    (r : ResultItem)
    (h : process_result_item normalized i .jnull = .ok r) :
    r.error = nullResultMarker ∧ r.statusCode = .jnull ∧ r.data = .jnull := by
  unfold process_result_item at h
  cases h
  exact ⟨rfl, rfl, rfl⟩

/-- A successful `send` on a parsed-JSON upstream response went through path
normalization and element-wise processing of a top-level array. -/
theorem send_ok_results (urls : List String) (tok ver : String) (d : JVal)
    (rs : List ResultItem)
    (h : send_batch_to_facebook urls tok ver (.json d) = .ok rs) :
    ∃ normalized items, normalize_urls ver urls = .ok normalized ∧
      d = .jarr items ∧ process_results normalized 0 items = .ok rs := by
  unfold send_batch_to_facebook at h
  split at h
  · exact absurd h (by simp)
  · split at h
    · exact absurd h (by simp)
    · cases hn : normalize_urls ver urls with
      | error e => rw [hn] at h; simp at h
      | ok normalized =>
        rw [hn] at h
        dsimp only at h
        cases d with
        | jarr items =>
          refine ⟨normalized, items, rfl, rfl, ?_⟩
          simpa [handle_response_data] using h
        | jobj fs =>
          exfalso
          unfold handle_response_data at h
          dsimp only at h
          cases hl : fs.lookup "error" with
          | none => rw [hl] at h; simp at h
          | some err => rw [hl] at h; cases err <;> simp at h
        | jnull => simp [handle_response_data] at h
        | jbool b => simp [handle_response_data] at h
        | jnum q => simp [handle_response_data] at h
        | jstr s p => simp [handle_response_data] at h

/-- A path whose first segment is the version tag in particular starts with
`v` (the first segment is a prefix of the path). -/
theorem pyFirstSeg_version_startsWith_v (u : String)
    (h : pyFirstSeg u = "v23.0") : pyStartsWith u "v" = true := by
  unfold pyFirstSeg at h
  have hd : u.data.takeWhile (fun c => c != '/') = "v23.0".data :=
    congrArg String.data h
  unfold pyStartsWith
  rw [ List.isPrefixOf_iff_prefix]
  have hu : "v23.0".data ++ u.data.dropWhile (fun c => c != '/') = u.data := by
    rw [← hd]
    exact List.takeWhile_append_dropWhile (fun c => c != '/') u.data
  refine ⟨"23.0".data ++ u.data.dropWhile (fun c => c != '/'), ?_⟩
  conv_rhs => rw [← hu]
  rfl

/-- Normalization raises `ValueError` whenever some path's first segment
(after stripping leading slashes) equals the version tag. -/
theorem normalize_urls_version_error (urls : List String)
    (h : ∃ url ∈ urls, pyFirstSeg (pyLstripSlash url) = "v23.0") :
    normalize_urls "v23.0" urls = .error .valueError := by
  induction urls with
  | nil =>
    obtain ⟨url, hmem, _⟩ := h
    exact absurd hmem (List.not_mem_nil url)
  | cons u rest ih =>
    obtain ⟨url, hmem, hseg⟩ := h
    unfold normalize_urls
    rcases List.mem_cons.mp hmem with rfl | hmem'
    · dsimp only
      rw [if_pos (Or.inr ⟨pyFirstSeg_version_startsWith_v _ hseg, hseg⟩)]
    · have hrest := ih ⟨url, hmem', hseg⟩
      rw [hrest]
      dsimp only
      split <;> rfl

/-- Claim C4: for every input list containing at least one path whose first
segment (after stripping leading `/`) equals the configured API version tag
`v23.0`, `send_batch_to_facebook` fails with `ValueError` (the `InvalidInput`
failure), and does so for every possible upstream response — in particular
before and independently of any outbound call. -/
theorem claim_C4_version_path_rejected (urls : List String) (tok : String)
    (upstream : Upstream)
    (h : ∃ url ∈ urls, pyFirstSeg (pyLstripSlash url) = "v23.0") :
    send_batch_to_facebook urls tok "v23.0" upstream = .error .valueError := by
  unfold send_batch_to_facebook
  split
  · rfl
  · split
    · rfl
    · rw [normalize_urls_version_error urls h]

/-- Witness for C4 at the concrete path `/v23.0/me`. -/
theorem claim_C4_witness :
    send_batch_to_facebook ["/v23.0/me"] "token" "v23.0" Upstream.transportError =
      .error .valueError :=
  claim_C4_version_path_rejected ["/v23.0/me"] "token" Upstream.transportError
    ⟨"/v23.0/me", by simp, by decide⟩

/-- Claim C9: `send_batch_to_facebook` fails with `ValueError` (the
`InvalidInput` failure), for every upstream response — hence before any
outbound call — whenever the path list is empty or longer than 50, and
whenever the credential is empty or contains the placeholder token. -/
theorem claim_C9_invalid_input (urls : List String) (tok ver : String)
    (upstream : Upstream) :
    ((urls = [] ∨ 50 < urls.length) →
      send_batch_to_facebook urls tok ver upstream = .error .valueError) ∧
    ((tok = "" ∨ pyInStr "YOUR_ACCESS_TOKEN" tok = true) →
      send_batch_to_facebook urls tok ver upstream = .error .valueError) := by
  constructor
  · intro hlen
    unfold send_batch_to_facebook
    split
    · rfl
    · have hc : ¬(1 ≤ urls.length ∧ urls.length ≤ 50) := by
        rcases hlen with rfl | hgt
        · simp
        · intro ⟨_, hle⟩
          omega
      rw [if_pos hc]
  · intro htok
    unfold send_batch_to_facebook
    rw [if_pos htok]

/-- Witness for C9: the empty path list and the empty credential. -/
theorem claim_C9_witness :
    send_batch_to_facebook [] "token" "v23.0" Upstream.transportError =
        .error .valueError ∧
    send_batch_to_facebook ["a"] "" "v23.0" Upstream.transportError =
        .error .valueError :=
  ⟨(claim_C9_invalid_input [] "token" "v23.0" Upstream.transportError).1 (Or.inl rfl),
   (claim_C9_invalid_input ["a"] "" "v23.0" Upstream.transportError).2 (Or.inl rfl)⟩

/-- Counterexample to C2 as stated: one path is submitted but the upstream
top-level array is empty (wrong length), and `send_batch_to_facebook`
succeeds with an empty result list instead of failing with a protocol error. -/
theorem claim_C2_counterexample :
    send_batch_to_facebook ["a"] "token" "v23.0" (.json (.jarr [])) = .ok [] ∧
    ([] : List ResultItem).length ≠ ["a"].length :=
  ⟨rfl, by decide⟩

/-- Claim C2 (amended): a successful `send_batch_to_facebook` on a parsed
top-level array returns exactly one result per upstream array element, with
`requestIndex` equal to the element's position — null elements included —
but the array's length is never checked against the number of submitted
paths, so the result list follows the upstream array's length. -/
theorem claim_C2_results_follow_upstream (urls : List String) (tok : String)
    (items : List JVal) (rs : List ResultItem)
    (h : send_batch_to_facebook urls tok "v23.0" (.json (.jarr items)) = .ok rs) :
    rs.length = items.length ∧
    ∀ (j : Nat) (r : ResultItem), rs[j]? = some r → r.requestIndex = j := by
  obtain ⟨normalized, items2, hn, heq, hp⟩ :=
    send_ok_results urls tok "v23.0" (.jarr items) rs h
  have heq2 : items = items2 := by injection heq
  rw [← heq2] at hp
  obtain ⟨hlen, hpt⟩ := process_results_ok_spec normalized items 0 rs hp
  refine ⟨hlen, ?_⟩
  intro j r hj
  have hjlt : j < rs.length := (List.getElem?_eq_some.mp hj).1
  cases hi : items[j]? with
  | none =>
    have : items.length ≤ j := List.getElem?_eq_none_iff.mp hi
    omega
  | some item =>
    obtain ⟨r', hr', hpr⟩ := hpt j item hi
    rw [hj] at hr'
    injection hr' with hr'
    subst hr'
    have := process_result_item_index normalized (0 + j) item r hpr
    simpa using this

/-- Concrete result list used by the C2 witness: two submitted paths, a
three-element upstream array (longer than the path list) whose last element
is null. -/
def c2WitnessResults : List ResultItem :=
  [{ requestIndex := 0, requestedUrl := .jstr "a" none, statusCode := .jnum 200,
     headers := .jarr [], data := .jobj [], error := .jnull },
   { requestIndex := 1, requestedUrl := .jstr "b" none, statusCode := .jnum 400,
     headers := .jarr [], data := .jnull, error := .jobj [] },
   { requestIndex := 2, requestedUrl := .jnull, statusCode := .jnull,
     headers := .jarr [], data := .jnull, error := nullResultMarker }]

/-- Witness for the amended C2 at a concrete input: two paths, three upstream
elements (one of them null), three results in submission order. -/
theorem claim_C2_witness :
    c2WitnessResults.length =
      [JVal.jobj [("code", .jnum 200)], JVal.jobj [("code", .jnum 400)],
        JVal.jnull].length ∧
    ∀ (j : Nat) (r : ResultItem), c2WitnessResults[j]? = some r →
      r.requestIndex = j :=
  claim_C2_results_follow_upstream ["a", "b"] "token"
    [JVal.jobj [("code", .jnum 200)], JVal.jobj [("code", .jnum 400)], JVal.jnull]
    c2WitnessResults rfl

/-- Claim C5: whenever `send_batch_to_facebook` succeeds on a parsed
top-level array whose element at position `i` is null, the result at
position `i` carries the null-result error marker, no status code and no
payload — the entry is not dropped and the call does not fail. -/
theorem claim_C5_null_element (urls : List String) (tok : String)
    (items : List JVal) (rs : List ResultItem) (i : Nat)
    (h : send_batch_to_facebook urls tok "v23.0" (.json (.jarr items)) = .ok rs)
    (hi : items[i]? = some .jnull) :
    ∃ r, rs[i]? = some r ∧ r.error = nullResultMarker ∧
      r.statusCode = .jnull ∧ r.data = .jnull := by
  obtain ⟨normalized, items2, hn, heq, hp⟩ :=
    send_ok_results urls tok "v23.0" (.jarr items) rs h
  have heq2 : items = items2 := by injection heq
  rw [← heq2] at hp
  obtain ⟨hlen, hpt⟩ := process_results_ok_spec normalized items 0 rs hp
  obtain ⟨r, hr, hpr⟩ := hpt i .jnull hi
  obtain ⟨he, hsc, hd⟩ := process_result_item_null normalized (0 + i) r hpr
  exact ⟨r, hr, he, hsc, hd⟩

/-- The single result produced for a null upstream element of a one-path
batch, used by the C5 witness. -/
def c5WitnessResult : ResultItem :=
  { requestIndex := 0, requestedUrl := .jstr "a" none, statusCode := .jnull,
    headers := .jarr [], data := .jnull, error := nullResultMarker }

/-- Witness for C5: one path, a one-element upstream array holding null. -/
theorem claim_C5_witness :
    ∃ r, [c5WitnessResult][0]? = some r ∧ r.error = nullResultMarker ∧
      r.statusCode = .jnull ∧ r.data = .jnull :=
  claim_C5_null_element ["a"] "token" [.jnull] [c5WitnessResult] 0 rfl rfl

/-- Claim C10: in every result list produced by a successful
`send_batch_to_facebook` call, no entry has both its payload and its error
field set — every entry has a null `data` or a null `error`. -/
theorem claim_C10_payload_error_exclusive (urls : List String) (tok ver : String)
    (upstream : Upstream) (rs : List ResultItem)
    (h : send_batch_to_facebook urls tok ver upstream = .ok rs) :
    ∀ r ∈ rs, r.data = .jnull ∨ r.error = .jnull := by
  cases upstream with
  | transportError =>
    unfold send_batch_to_facebook at h
    split at h
    · simp at h
    · split at h
      · simp at h
      · cases hn : normalize_urls ver urls with
        | error e => rw [hn] at h; simp at h
        | ok normalized => rw [hn] at h; simp at h
  | notJson =>
    unfold send_batch_to_facebook at h
    split at h
    · simp at h
    · split at h
      · simp at h
      · cases hn : normalize_urls ver urls with
        | error e => rw [hn] at h; simp at h
        | ok normalized => rw [hn] at h; simp at h
  | json d =>
    obtain ⟨normalized, items, hn, heq, hp⟩ := send_ok_results urls tok ver d rs h
    obtain ⟨hlen, hpt⟩ := process_results_ok_spec normalized items 0 rs hp
    intro r hr
    obtain ⟨j, hj⟩ := List.mem_iff_getElem?.mp hr
    have hjlt : j < rs.length := (List.getElem?_eq_some.mp hj).1
    cases hi : items[j]? with
    | none =>
      have : items.length ≤ j := List.getElem?_eq_none_iff.mp hi
      omega
    | some item =>
      obtain ⟨r', hr', hpr⟩ := hpt j item hi
      rw [hj] at hr'
      injection hr' with hr'
      subst hr'
      exact process_result_item_excl normalized (0 + j) item r hpr

/-- The error entry of the C10 witness batch. -/
def c10ErrorEntry : ResultItem :=
  { requestIndex := 1, requestedUrl := .jstr "b" none, statusCode := .jnum 400,
    headers := .jarr [], data := .jnull, error := .jobj [] }

/-- Witness for C10: the error entry of a mixed batch (a success, an upstream
error and a null element) has no payload set alongside its error. -/
theorem claim_C10_witness :
    c10ErrorEntry.data = .jnull ∨ c10ErrorEntry.error = .jnull :=
  claim_C10_payload_error_exclusive ["a", "b"] "token" "v23.0"
    (.json (.jarr [JVal.jobj [("code", .jnum 200)],
      JVal.jobj [("code", .jnum 400)], JVal.jnull]))
    c2WitnessResults rfl c10ErrorEntry
    (by simp [c2WitnessResults, c10ErrorEntry])

/-- Per-item behaviour on a dict element with a parseable non-empty body:
status 200 puts the parsed body in `data` and leaves `error` null; any other
status-code value puts `subErrorOf` of the parsed body in `error` and leaves
`data` null. -/
theorem process_result_item_status (normalized : List String) (i : Nat)
    (fs : List (String × JVal)) (s : String) (v : JVal)
    (hbody : fs.lookup "body" = some (.jstr s (some v))) (hs : s ≠ "") :
    (fs.lookup "code" = some (.jnum 200) →
      ∃ r, process_result_item normalized i (.jobj fs) = .ok r ∧
        r.data = v ∧ r.error = .jnull) ∧
    (∀ c, fs.lookup "code" = some c → c ≠ .jnum 200 →
      ∃ r, process_result_item normalized i (.jobj fs) = .ok r ∧
        r.error = subErrorOf v ∧ r.data = .jnull) := by
  constructor
  · intro hcode
    refine ⟨{ requestIndex := i, requestedUrl := requestedUrlAt normalized i,
              statusCode := .jnum 200, headers := .jarr [], data := v,
              error := .jnull }, ?_, rfl, rfl⟩
    unfold process_result_item
    simp only [pyGetD, hcode, hbody, Option.getD_some, pyTruthy]
    rw [if_pos (by simpa using hs)]
    simp [jsonLoads]
  · intro c hcode hc
    refine ⟨{ requestIndex := i, requestedUrl := requestedUrlAt normalized i,
              statusCode := c, headers := .jarr [], data := .jnull,
              error := subErrorOf v }, ?_, rfl, rfl⟩
    unfold process_result_item
    simp only [pyGetD, hcode, hbody, Option.getD_some, pyTruthy]
    rw [if_pos (by simpa using hs)]
    simp only [jsonLoads]
    cases c with
    | jnum q =>
      have hq : q ≠ 200 := by
        intro hq2
        exact hc (by rw [hq2])
      simp [hq]
    | jnull => rfl
    | jbool b => rfl
    | jstr s2 p2 => rfl
    | jarr l => rfl
    | jobj gs => rfl

/-- Claim C7: in a successful `send_batch_to_facebook` call, an upstream
element with status code 200 and a valid non-empty JSON body `v` yields a
result with `data = v` and `error` null, while an element with any other
status-code value yields `error` set (to the parsed body's `error` member if
present, else the whole parsed body, via `subErrorOf`) and `data` null. -/
theorem claim_C7_status_dispatch (urls : List String) (tok : String)
    (items : List JVal) (rs : List ResultItem) (i : Nat)
    (fs : List (String × JVal)) (s : String) (v : JVal)
    (h : send_batch_to_facebook urls tok "v23.0" (.json (.jarr items)) = .ok rs)
    (hi : items[i]? = some (.jobj fs))
    (hbody : fs.lookup "body" = some (.jstr s (some v))) (hs : s ≠ "") :
    (fs.lookup "code" = some (.jnum 200) →
      ∃ r, rs[i]? = some r ∧ r.data = v ∧ r.error = .jnull) ∧
    (∀ c, fs.lookup "code" = some c → c ≠ .jnum 200 →
      ∃ r, rs[i]? = some r ∧ r.error = subErrorOf v ∧ r.data = .jnull) := by
  obtain ⟨normalized, items2, hn, heq, hp⟩ :=
    send_ok_results urls tok "v23.0" (.jarr items) rs h
  have heq2 : items = items2 := by injection heq
  rw [← heq2] at hp
  obtain ⟨hlen, hpt⟩ := process_results_ok_spec normalized items 0 rs hp
  obtain ⟨r, hr, hpr⟩ := hpt i (.jobj fs) hi
  obtain ⟨h200, hother⟩ :=
    process_result_item_status normalized (0 + i) fs s v hbody hs
  constructor
  · intro hcode
    obtain ⟨r', hpr', hd, he⟩ := h200 hcode
    rw [hpr] at hpr'
    injection hpr' with hpr'
    subst hpr'
    exact ⟨r, hr, hd, he⟩
  · intro c hcode hc
    obtain ⟨r', hpr', he, hd⟩ := hother c hcode hc
    rw [hpr] at hpr'
    injection hpr' with hpr'
    subst hpr'
    exact ⟨r, hr, he, hd⟩

/-- Upstream item used by the C7 witness: status 200 with body
`{"id": 7}`. -/
def c7OkItem : List (String × JVal) :=
  [("code", .jnum 200), ("body", .jstr "\x7b\"id\": 7\x7d" (some (.jobj [("id", .jnum 7)])))]

/-- Upstream item used by the C7 witness: status 400 with body
`{"error": {"code": 190}}`. -/
def c7ErrItem : List (String × JVal) :=
  [("code", .jnum 400),
   ("body", .jstr "\x7b\"error\": \x7b\"code\": 190\x7d\x7d"
     (some (.jobj [("error", .jobj [("code", .jnum 190)])])))]

/-- The two results `send_batch_to_facebook` produces for the C7 witness
batch. -/
def c7Results : List ResultItem :=
  [{ requestIndex := 0, requestedUrl := .jstr "a" none, statusCode := .jnum 200,
     headers := .jarr [], data := .jobj [("id", .jnum 7)], error := .jnull },
   { requestIndex := 1, requestedUrl := .jstr "b" none, statusCode := .jnum 400,
     headers := .jarr [], data := .jnull,
     error := .jobj [("code", .jnum 190)] }]

/-- Witness for C7: a two-element batch with one 200 element and one 400
element carrying an `error` object. -/
theorem claim_C7_witness :
    (∃ r, c7Results[0]? = some r ∧
        r.data = .jobj [("id", .jnum 7)] ∧ r.error = .jnull) ∧
    (∃ r, c7Results[1]? = some r ∧
        r.error = subErrorOf (.jobj [("error", .jobj [("code", .jnum 190)])]) ∧
        r.data = .jnull) :=
  ⟨(claim_C7_status_dispatch ["a", "b"] "token" [.jobj c7OkItem, .jobj c7ErrItem]
      c7Results 0 c7OkItem "\x7b\"id\": 7\x7d" (.jobj [("id", .jnum 7)])
      rfl rfl rfl (by decide)).1 rfl,
    (claim_C7_status_dispatch ["a", "b"] "token" [.jobj c7OkItem, .jobj c7ErrItem]
      c7Results 1 c7ErrItem "\x7b\"error\": \x7b\"code\": 190\x7d\x7d"
      (.jobj [("error", .jobj [("code", .jnum 190)])])
      rfl rfl rfl (by decide)).2 (.jnum 400) rfl
      (by intro hh; injection hh with hh; exact absurd hh (by decide))⟩

/-! ## Aggregator claims -/

/-- Usage-header JSON carrying, for account `123`, two entries whose
`estimated_time_to_regain_access` values are 120 and then 0. -/
def c1BucParsed : JVal :=
  .jobj [("123", .jarr
    [.jobj [("estimated_time_to_regain_access", .jnum 120)],
     .jobj [("estimated_time_to_regain_access", .jnum 0)]])]

/-- Raw text of that usage header. -/
def c1BucText : String :=
  "\x7b\"123\": [\x7b\"estimated_time_to_regain_access\": 120\x7d, \x7b\"estimated_time_to_regain_access\": 0\x7d]\x7d"

/-- A result carrying only that usage header. -/
def c1Result : ResultItem :=
  { requestIndex := 0, requestedUrl := .jnull, statusCode := .jnum 200,
    headers := .jarr [.jobj
      [("name", .jstr "X-Business-Use-Case-Usage" none),
       ("value", .jstr c1BucText (some c1BucParsed))]],
    data := .jnull, error := .jnull }

/-- Claim C1 evaluated at the failing input: for usage-header entries with
etas 120 then 0 for account `123`, the aggregator returns eta 0 — the last
entry's value (clamped by `max` against the lookup default 0) — although the
maximum over the entries is 120.  The store/lookup key mismatch
(`etas["act_" + id]` written, `etas.get(id, 0)` read) makes every lookup miss,
so the claimed maximum (and its order independence) fails. -/
theorem claim_C1_eta_not_max :
    summarize_rate_limits_from_batch [c1Result] =
        .ok ⟨none, [], [("act_123", 0)]⟩ ∧
    pyMaxQ 120 0 = 120 ∧ (0 : ℚ) ≠ 120 :=
  ⟨rfl, by decide, by decide⟩

/-- A result for account `act_123` whose throttle header reports
`acc_id_util_pct` equal to `u` (with raw header text `raw`). -/
def throttleResult (raw : String) (u : ℚ) : ResultItem :=
  { requestIndex := 0,
    requestedUrl := .jstr "act_123/insights?fields=account_id&limit=1" none,
    statusCode := .jnum 200,
    headers := .jarr [.jobj
      [("name", .jstr "x-fb-ads-insights-throttle" none),
       ("value", .jstr raw (some (.jobj [("acc_id_util_pct", .jnum u)])))]],
    data := .jnull, error := .jnull }

/-- A result carrying a usage header for account `123` with two entries whose
etas are `e1` and then `e2` (with raw header text `raw`). -/
def bucResult (raw : String) (e1 e2 : ℚ) : ResultItem :=
  { requestIndex := 0, requestedUrl := .jnull, statusCode := .jnum 200,
    headers := .jarr [.jobj
      [("name", .jstr "x-business-use-case-usage" none),
       ("value", .jstr raw (some (.jobj [("123", .jarr
         [.jobj [("estimated_time_to_regain_access", .jnum e1)],
          .jobj [("estimated_time_to_regain_access", .jnum e2)]])])))]],
    data := .jnull, error := .jnull }

/-- Counterexample to C3 as stated: two sub-requests for the same account
`act_123` report usage percentages 25 and then 10; the aggregated value is
10 — the last value seen — not the maximum 25. -/
theorem claim_C3_counterexample :
    summarize_rate_limits_from_batch
        [throttleResult "\x7b\"acc_id_util_pct\": 25\x7d" 25,
         throttleResult "\x7b\"acc_id_util_pct\": 10\x7d" 10] =
      .ok ⟨none, [("act_123", 10)], []⟩ ∧
    pyMaxQ 25 10 = 25 ∧ (10 : ℚ) ≠ 25 :=
  ⟨rfl, by decide, by decide⟩

/-- Claim C3 (amended): when multiple sub-requests (or usage entries)
reference the same account, the aggregator keeps the LAST usage percentage
seen (plain overwriting assignment, not a maximum), and — because of the
store/lookup key mismatch — records as eta `max 0 e` of the last entry `e`
alone, for all values involved. -/
theorem claim_C3_last_value_wins (u1 u2 e1 e2 : ℚ) :
    summarize_rate_limits_from_batch
        [throttleResult "t1" u1, throttleResult "t2" u2] =
      .ok ⟨none, [("act_123", u2)], []⟩ ∧
    summarize_rate_limits_from_batch [bucResult "t3" e1 e2] =
      .ok ⟨none, [], [("act_123", pyMaxQ 0 e2)]⟩ :=
  ⟨rfl, rfl⟩

/-- Usage-header entry lists that contain only objects (the shape on which
the entry loop cannot raise an uncaught `AttributeError`); non-list values
are skipped by the source's `isinstance` guard, so any shape is fine there. -/
def entriesAllObj : JVal → Bool
  | .jarr l => l.all (fun e => match e with | .jobj _ => true | _ => false)
  | _ => true

/-- A throttle-header value is harmless when it is not parseable JSON (the
exception is caught) or parses to an object. -/
def throttleValOk (v : JVal) : Bool :=
  match jsonLoads v with
  | .ok (.jobj _) => true
  | .ok _ => false
  | .error _ => true

/-- A usage-header value is harmless when it is not parseable JSON or parses
to an object whose per-account entry lists contain only objects. -/
def bucValOk (v : JVal) : Bool :=
  match jsonLoads v with
  | .ok (.jobj fs) => fs.all (fun kv => entriesAllObj kv.2)
  | .ok _ => false
  | .error _ => true

/-- Well-formedness of one result's headers, under which the aggregator
cannot raise: headers are falsy (skipped), or an iterable whose elements are
header objects with string (or absent) names, with harmless throttle and
usage values.  Missing, non-string and malformed-JSON values are all
harmless — only wrongly-shaped parsed JSON is excluded. -/
def headersOk (r : ResultItem) : Bool :=
  if pyTruthy r.headers = false then true
  else
    match pyIterate r.headers with
    | .error _ => false
    | .ok hs =>
      match headers_dict_of hs with
      | .error _ => false
      | .ok hd => throttleValOk (throttle_header_val hd) && bucValOk (buc_header_val hd)

/-- jsonLoads can only raise `JSONDecodeError` or `TypeError`. -/
theorem jsonLoads_error_cases (v : JVal) (e : PyExc)
    (h : jsonLoads v = .error e) : e = .jsonDecodeError ∨ e = .typeError := by
  unfold jsonLoads at h
  split at h <;> simp_all

/-- pyMaxQJ can only raise `TypeError`. -/
theorem pyMaxQJ_error_typeError (a : ℚ) (v : JVal) (e : PyExc)
    (h : pyMaxQJ a v = .error e) : e = .typeError := by
  unfold pyMaxQJ at h
  cases hv : pyFloatNum v <;> rw [hv] at h <;> simp_all

/-- On all-object entry lists the entry loop either succeeds or raises a
(caught) `TypeError`. -/
theorem buc_entries_ok_or_typeError (accKey : String) :
    ∀ (l : List JVal) (etas : List (String × ℚ)),
      (∀ e ∈ l, entriesAllObj (.jarr [e]) = true) →
      (∃ e2, buc_entries accKey etas l = .ok e2) ∨
      (∃ e2, buc_entries accKey etas l = .error (.typeError, e2))
  | [], etas, _ => .inl ⟨etas, rfl⟩
  | entry :: rest, etas, hl => by
    have hhead := hl entry (List.mem_cons_self entry rest)
    cases entry with
    | jobj fs =>
      unfold buc_entries
      dsimp only
      cases hm : pyMaxQJ ((etas.lookup accKey).getD 0)
          ((fs.lookup "estimated_time_to_regain_access").getD (.jnum 0)) with
      | ok q =>
        exact buc_entries_ok_or_typeError accKey rest
          (pySet etas ("act_" ++ accKey) q)
          (fun e he => hl e (List.mem_cons_of_mem _ he))
      | error ex =>
        right
        have hex := pyMaxQJ_error_typeError _ _ ex hm
        subst hex
        exact ⟨etas, rfl⟩
    | jnull => simp [entriesAllObj] at hhead
    | jbool b => simp [entriesAllObj] at hhead
    | jnum q => simp [entriesAllObj] at hhead
    | jstr s p => simp [entriesAllObj] at hhead
    | jarr l2 => simp [entriesAllObj] at hhead

/-- On account maps whose entry lists are all-object, the account loop either
succeeds or raises a (caught) `TypeError`. -/
theorem buc_accounts_ok_or_typeError :
    ∀ (fs : List (String × JVal)) (etas : List (String × ℚ)),
      (∀ kv ∈ fs, entriesAllObj kv.2 = true) →
      (∃ e2, buc_accounts etas fs = .ok e2) ∨
      (∃ e2, buc_accounts etas fs = .error (.typeError, e2))
  | [], etas, _ => .inl ⟨etas, rfl⟩
  | (accKey, entries) :: rest, etas, hfs => by
    have hhead := hfs (accKey, entries) (List.mem_cons_self _ rest)
    unfold buc_accounts
    cases entries with
    | jarr l =>
      dsimp only
      have hl : ∀ e ∈ l, entriesAllObj (.jarr [e]) = true := by
        intro e he
        simp only [entriesAllObj, List.all_cons, List.all_nil, Bool.and_true]
        simp only [entriesAllObj, List.all_eq_true] at hhead
        exact hhead e he
      rcases buc_entries_ok_or_typeError accKey l etas hl with ⟨e2, he2⟩ | ⟨e2, he2⟩
      · rw [he2]
        exact buc_accounts_ok_or_typeError rest e2
          (fun kv hkv => hfs kv (List.mem_cons_of_mem _ hkv))
      · rw [he2]
        exact .inr ⟨e2, rfl⟩
    | jnull =>
      exact buc_accounts_ok_or_typeError rest etas
        (fun kv hkv => hfs kv (List.mem_cons_of_mem _ hkv))
    | jbool b =>
      exact buc_accounts_ok_or_typeError rest etas
        (fun kv hkv => hfs kv (List.mem_cons_of_mem _ hkv))
    | jnum q =>
      exact buc_accounts_ok_or_typeError rest etas
        (fun kv hkv => hfs kv (List.mem_cons_of_mem _ hkv))
    | jstr s p =>
      exact buc_accounts_ok_or_typeError rest etas
        (fun kv hkv => hfs kv (List.mem_cons_of_mem _ hkv))
    | jobj gs =>
      exact buc_accounts_ok_or_typeError rest etas
        (fun kv hkv => hfs kv (List.mem_cons_of_mem _ hkv))

/-- A harmless usage-header value makes the usage block succeed. -/
theorem buc_block_ok (etas : List (String × ℚ)) (hd : List (String × JVal))
    (h : bucValOk (buc_header_val hd) = true) :
    ∃ e2, buc_block etas hd = .ok e2 := by
  unfold buc_block
  unfold bucValOk at h
  cases hj : jsonLoads (buc_header_val hd) with
  | error e =>
    rcases jsonLoads_error_cases _ _ hj with rfl | rfl
    · exact ⟨etas, rfl⟩
    · exact ⟨etas, rfl⟩
  | ok buc =>
    rw [hj] at h
    cases buc with
    | jobj fs =>
      dsimp only at h ⊢
      have hfs : ∀ kv ∈ fs, entriesAllObj kv.2 = true := by
        simp only [List.all_eq_true] at h
        exact h
      rcases buc_accounts_ok_or_typeError fs etas hfs with ⟨e2, he2⟩ | ⟨e2, he2⟩
      · rw [he2]; exact ⟨e2, rfl⟩
      · rw [he2]; exact ⟨e2, rfl⟩
    | jnull => simp at h
    | jbool b => simp at h
    | jnum q => simp at h
    | jstr s p => simp at h
    | jarr l => simp at h

/-- A harmless throttle-header value makes the throttle block succeed. -/
theorem throttle_block_ok (accId : Option String) (hd : List (String × JVal))
    (st : SumState) (h : throttleValOk (throttle_header_val hd) = true) :
    ∃ st1, throttle_block accId hd st = .ok st1 := by
  unfold throttle_block
  unfold throttleValOk at h
  cases hj : jsonLoads (throttle_header_val hd) with
  | error e =>
    rcases jsonLoads_error_cases _ _ hj with rfl | rfl
    · exact ⟨st, rfl⟩
    · exact ⟨st, rfl⟩
  | ok t =>
    rw [hj] at h
    cases t with
    | jobj fs => exact ⟨_, rfl⟩
    | jnull => simp at h
    | jbool b => simp at h
    | jnum q => simp at h
    | jstr s p => simp at h
    | jarr l => simp at h

/-- Well-formed headers make the per-result loop body succeed from any
state. -/
theorem process_result_ok (st : SumState) (r : ResultItem)
    (h : headersOk r = true) : ∃ st', process_result st r = .ok st' := by
  unfold process_result
  unfold headersOk at h
  split at h
  · rename_i htr
    rw [if_pos htr]
    exact ⟨st, rfl⟩
  · rename_i htr
    rw [if_neg htr]
    cases hit : pyIterate r.headers with
    | error e => rw [hit] at h; simp at h
    | ok hs =>
      rw [hit] at h
      dsimp only at h ⊢
      revert h
      cases hhd : headers_dict_of hs with
      | error e => intro h; simp at h
      | ok hd =>
        intro h
        dsimp only at h ⊢
        obtain ⟨hthr, hbuc⟩ := by simpa using h
        obtain ⟨st1, hst1⟩ :=
          throttle_block_ok (acc_id_from_url r.requestedUrl) hd st hthr
        rw [hst1]
        dsimp only
        obtain ⟨e2, he2⟩ := buc_block_ok st1.etas hd hbuc
        rw [he2]
        exact ⟨_, rfl⟩

/-- Well-formed headers on every result make the whole loop succeed. -/
theorem summarize_results_ok :
    ∀ (rs : List ResultItem) (st : SumState),
      (∀ r ∈ rs, headersOk r = true) →
      ∃ st', summarize_results st rs = .ok st'
  | [], st, _ => ⟨st, rfl⟩
  | r :: rest, st, h => by
    unfold summarize_results
    obtain ⟨st1, hst1⟩ := process_result_ok st r (h r (List.mem_cons_self r rest))
    rw [hst1]
    exact summarize_results_ok rest st1 (fun r2 hr2 => h r2 (List.mem_cons_of_mem _ hr2))

/-- A result whose only header is a throttle header with invalid JSON text. -/
def malformedHeaderResult : ResultItem :=
  { requestIndex := 0, requestedUrl := .jnull, statusCode := .jnum 200,
    headers := .jarr [.jobj
      [("name", .jstr "x-fb-ads-insights-throttle" none),
       ("value", .jstr "\x7bnot json" none)]],
    data := .jnull, error := .jnull }

/-- A result whose throttle header reports `app_id_util_pct` 25. -/
def appUsage25Result : ResultItem :=
  { requestIndex := 1, requestedUrl := .jnull, statusCode := .jnum 200,
    headers := .jarr [.jobj
      [("name", .jstr "x-fb-ads-insights-throttle" none),
       ("value", .jstr "\x7b\"app_id_util_pct\": 25\x7d"
         (some (.jobj [("app_id_util_pct", .jnum 25)])))]],
    data := .jnull, error := .jnull }

/-- Counterexample to C6 as stated: a single result whose throttle header
value is the string `[1]` — a perfectly legal header string — makes the
aggregator raise `AttributeError` (`.get` on the parsed list), because the
`except` clause catches only `JSONDecodeError` and `TypeError`.  So
`summarize` does not return a summary for every input list. -/
theorem claim_C6_counterexample :
    summarize_rate_limits_from_batch
        [{ requestIndex := 0, requestedUrl := .jnull, statusCode := .jnum 200,
           headers := .jarr [.jobj
             [("name", .jstr "x-fb-ads-insights-throttle" none),
              ("value", .jstr "[1]" (some (.jarr [.jnum 1])))]],
           data := .jnull, error := .jnull }] = .error .attributeError :=
  rfl

/-- Claim C6 (amended): the aggregator returns a summary without raising for
every result list whose headers are well formed in the sense of `headersOk` —
which still allows missing, non-string and malformed-JSON header values, all
silently skipped per entry — and a malformed header on one result does not
prevent aggregation of valid headers from other results (a malformed
throttle header followed by a valid one still yields `app_usage` 25). -/
theorem claim_C6_never_fails_when_wellformed :
    (∀ rs : List ResultItem, (∀ r ∈ rs, headersOk r = true) →
      ∃ s, summarize_rate_limits_from_batch rs = .ok s) ∧
    summarize_rate_limits_from_batch [malformedHeaderResult, appUsage25Result] =
      .ok ⟨some 25, [], []⟩ := by
  constructor
  · intro rs h
    unfold summarize_rate_limits_from_batch
    obtain ⟨st', hst'⟩ := summarize_results_ok rs ⟨[], [], []⟩ h
    rw [hst']
    exact ⟨_, rfl⟩
  · rfl

/-- Witness for C6: the mixed malformed/valid pair satisfies `headersOk`, so
the amended theorem applies to it. -/
theorem claim_C6_witness :
    ∃ s, summarize_rate_limits_from_batch
      [malformedHeaderResult, appUsage25Result] = .ok s :=
  claim_C6_never_fails_when_wellformed.1 [malformedHeaderResult, appUsage25Result]
    (by decide)

/-- Specification-side description of C8's "observed `app_id_util_pct`
values" for one headers dict: the numeric `app_id_util_pct` of the parsed
throttle header, when the header parses to an object carrying one. -/
def throttleAppContrib (hd : List (String × JVal)) : List ℚ :=
  match jsonLoads (throttle_header_val hd) with
  | .ok (.jobj fs) =>
    match fs.lookup "app_id_util_pct" with
    | some v =>
      match pyFloatNum v with
      | some q => [q]
      | none => []
    | none => []
  | _ => []

/-- Observed `app_id_util_pct` values of one result (empty when its headers
are skipped or unusable). -/
def specAppUsagesOne (r : ResultItem) : List ℚ :=
  if pyTruthy r.headers = false then []
  else
    match pyIterate r.headers with
    | .error _ => []
    | .ok hs =>
      match headers_dict_of hs with
      | .error _ => []
      | .ok hd => throttleAppContrib hd

/-- All observed `app_id_util_pct` values across a result list, in order. -/
def specAppUsages (rs : List ResultItem) : List ℚ :=
  (rs.map specAppUsagesOne).flatten

/-- The app-usage statement appends exactly the observed contribution. -/
theorem throttle_app_step_appVals (st : SumState) (fs : List (String × JVal)) :
    (throttle_app_step st fs).appVals =
      st.appVals ++ (match fs.lookup "app_id_util_pct" with
        | some v =>
          match pyFloatNum v with
          | some q => [q]
          | none => []
        | none => []) := by
  unfold throttle_app_step
  cases hl : fs.lookup "app_id_util_pct" with
  | none => simp
  | some v => cases hv : pyFloatNum v <;> simp [hv]

/-- The account-usage statement never touches `app_usage_values`. -/
theorem throttle_acc_step_appVals (accId : Option String) (st : SumState)
    (fs : List (String × JVal)) :
    (throttle_acc_step accId st fs).appVals = st.appVals := by
  unfold throttle_acc_step
  cases accId with
  | none => rfl
  | some a =>
    cases hl : fs.lookup "acc_id_util_pct" with
    | none => rfl
    | some v => cases hv : pyFloatNum v <;> simp [hv]

/-- A successful throttle block appends exactly the observed contribution of
its headers dict. -/
theorem throttle_block_appVals (accId : Option String)
    (hd : List (String × JVal)) (st st1 : SumState)
    (h : throttle_block accId hd st = .ok st1) :
    st1.appVals = st.appVals ++ throttleAppContrib hd := by
  unfold throttle_block at h
  unfold throttleAppContrib
  cases hj : jsonLoads (throttle_header_val hd) with
  | error e =>
    rw [hj] at h
    rcases jsonLoads_error_cases _ _ hj with rfl | rfl
    · injection h with h
      subst h
      simp
    · injection h with h
      subst h
      simp
  | ok t =>
    rw [hj] at h
    cases t with
    | jobj fs =>
      injection h with h
      subst h
      rw [throttle_acc_step_appVals, throttle_app_step_appVals]
    | jnull => simp at h
    | jbool b => simp at h
    | jnum q => simp at h
    | jstr s p => simp at h
    | jarr l => simp at h

/-- A successful loop body appends exactly the result's observed
contribution to `app_usage_values`. -/
theorem process_result_appVals (st : SumState) (r : ResultItem)
    (st' : SumState) (h : process_result st r = .ok st') :
    st'.appVals = st.appVals ++ specAppUsagesOne r := by
  unfold process_result at h
  unfold specAppUsagesOne
  split at h
  · rename_i htr
    rw [if_pos htr]
    injection h with h
    subst h
    simp
  · rename_i htr
    rw [if_neg htr]
    cases hit : pyIterate r.headers with
    | error e => rw [hit] at h; simp at h
    | ok hs =>
      rw [hit] at h
      dsimp only at h ⊢
      cases hhd : headers_dict_of hs with
      | error e => rw [hhd] at h; simp at h
      | ok hd =>
        rw [hhd] at h
        dsimp only at h
        cases ht : throttle_block (acc_id_from_url r.requestedUrl) hd st with
        | error e => rw [ht] at h; simp at h
        | ok st1 =>
          rw [ht] at h
          dsimp only at h
          cases hb : buc_block st1.etas hd with
          | error e => rw [hb] at h; simp at h
          | ok e2 =>
            rw [hb] at h
            injection h with h
            subst h
            exact throttle_block_appVals _ hd st st1 ht

/-- A successful run of the whole loop appends exactly the observed
contributions of all results. -/
theorem summarize_results_appVals :
    ∀ (rs : List ResultItem) (st st' : SumState),
      summarize_results st rs = .ok st' →
      st'.appVals = st.appVals ++ specAppUsages rs
  | [], st, st', h => by
    unfold summarize_results at h
    injection h with h
    subst h
    simp [specAppUsages]
  | r :: rest, st, st', h => by
    unfold summarize_results at h
    cases hp : process_result st r with
    | error e => rw [hp] at h; simp at h
    | ok st1 =>
      rw [hp] at h
      have h1 := process_result_appVals st r st1 hp
      have h2 := summarize_results_appVals rest st1 st' h
      rw [h2, h1]
      simp [specAppUsages]

/-- Headers of the form `.jarr []` (the empty header list) make the loop body
a no-op. -/
theorem summarize_results_headerless :
    ∀ (rs : List ResultItem) (st : SumState),
      (∀ r ∈ rs, r.headers = .jarr []) → summarize_results st rs = .ok st
  | [], _, _ => rfl
  | r :: rest, st, h => by
    unfold summarize_results
    have hr : r.headers = .jarr [] := h r (List.mem_cons_self r rest)
    have : process_result st r = .ok st := by
      unfold process_result
      rw [hr]
      rfl
    rw [this]
    exact summarize_results_headerless rest st
      (fun r2 hr2 => h r2 (List.mem_cons_of_mem _ hr2))

/-- Claim C8: for every result list on which the aggregator returns, the
reported `max_app_usage_pct` equals the maximum of all observed
`app_id_util_pct` values across all results' throttle headers (absent when
none was observed), and on an empty or header-less result list the summary is
entirely empty: no app usage, empty account-usage map, empty eta map. -/
theorem claim_C8_app_usage_max :
    (∀ (rs : List ResultItem) (s : RateLimitSummary),
      summarize_rate_limits_from_batch rs = .ok s →
      s.insights_app_usage = pyMaxList (specAppUsages rs)) ∧
    (∀ rs : List ResultItem, (∀ r ∈ rs, r.headers = .jarr []) →
      summarize_rate_limits_from_batch rs = .ok ⟨none, [], []⟩) := by
  constructor
  · intro rs s h
    unfold summarize_rate_limits_from_batch at h
    cases hst : summarize_results ⟨[], [], []⟩ rs with
    | error e => rw [hst] at h; simp at h
    | ok st =>
      rw [hst] at h
      injection h with h
      subst h
      have := summarize_results_appVals rs ⟨[], [], []⟩ st hst
      dsimp only
      rw [this]
      simp
  · intro rs h
    unfold summarize_rate_limits_from_batch
    rw [summarize_results_headerless rs ⟨[], [], []⟩ h]
    rfl

/-- Witness for C8: two results reporting app usages 10 and 25 give maximum
25, and the empty result list gives the empty summary. -/
theorem claim_C8_witness :
    (some (25 : ℚ) =
      pyMaxList (specAppUsages
        [{ requestIndex := 0, requestedUrl := .jnull, statusCode := .jnum 200,
           headers := .jarr [.jobj
             [("name", .jstr "x-fb-ads-insights-throttle" none),
              ("value", .jstr "\x7b\"app_id_util_pct\": 10\x7d"
                (some (.jobj [("app_id_util_pct", .jnum 10)])))]],
           data := .jnull, error := .jnull }, appUsage25Result])) ∧
    summarize_rate_limits_from_batch [] = .ok ⟨none, [], []⟩ :=
  ⟨claim_C8_app_usage_max.1 _ ⟨some 25, [], []⟩ rfl,
   claim_C8_app_usage_max.2 [] (by simp)⟩
